import Mathlib

/-!
Shallow embedding of `src/conflict_checks.py` (a Streamlit conflict-of-interest
checker against the Clio API), together with theorems settling the specified
claims about it.

Modelling conventions:
  * Python `str` is Lean `String`; the Python string operations used by the
    source (`lower`, `strip`, `split(',')`, the `in` substring test) are
    re-implemented over `List Char` so that every definition kernel-evaluates.
    They agree with CPython on the ASCII inputs the program handles.
  * Python `datetime` values are modelled as integer timestamps (`Int`);
    `datetime.now()` becomes an explicit `now : Int` parameter and
    `timedelta(seconds = n)` becomes integer addition.
  * The SQLite `tokens` table (INSERT-append, SELECT ... ORDER BY id DESC
    LIMIT 1) is modelled as a `List TokenRecord` where saving appends and
    loading takes the last element.
  * Network I/O (`requests.post` / `requests.get`) is modelled by passing the
    remote's responses as explicit oracle parameters; the number of calls the
    code would issue is returned as an explicit counter.
  * A Python value that may be a missing dictionary key is an `Option`;
    Python truthiness of a string (`if s:`) is `s ≠ ""` on the present value.
    Custom-field values that are JSON `null` behave identically to `""` in
    every use site (each is guarded by truthiness first), so field values are
    plain strings.
  * Streamlit display calls (`st.write`, `st.success`, ...) are silent except
    where a claim is about them: the truncation warning of `fetch_all_pages`
    is returned as an explicit Boolean.
-/

/-! ### Python string primitives -/

/-- Python `s.lower()` (ASCII case mapping, as used by the source). -/
def pyLower (s : String) : String := ⟨s.toList.map Char.toLower⟩

/-- Auxiliary for the substring test: does `haystack` start with `needle`? -/
def charsStartWith : List Char → List Char → Bool
  | [], _ => true
  | _ :: _, [] => false
  | a :: as, b :: bs => a = b && charsStartWith as bs

/-- Auxiliary for the substring test: does `needle` occur contiguously? -/
def charsContain (needle : List Char) : List Char → Bool
  | [] => needle.isEmpty
  | b :: bs => charsStartWith needle (b :: bs) || charsContain needle bs

/-- Python `needle in haystack` on strings (contiguous substring test;
true for the empty needle). -/
def pyIn (needle haystack : String) : Bool :=
  charsContain needle.toList haystack.toList

/-- Auxiliary for Python `s.split(',')` over the character list. -/
def splitCommaChars : List Char → List (List Char)
  | [] => [[]]
  | c :: cs =>
    let rest := splitCommaChars cs
    if c = ',' then [] :: rest
    else
      match rest with
      | r :: rs => (c :: r) :: rs
      | [] => [[c]]

/-- Python `s.split(',')`. -/
def pySplitComma (s : String) : List String :=
  (splitCommaChars s.toList).map (fun cs => ⟨cs⟩)

/-- Python `s.strip()`: remove leading and trailing whitespace. -/
def pyStrip (s : String) : String :=
  ⟨((s.toList.dropWhile Char.isWhitespace).reverse.dropWhile Char.isWhitespace).reverse⟩

/-! ### Data model: contacts, matters, new-client queries

Mirrors the dictionary shapes read by `perform_advanced_conflict_check` and
`get_custom_field_value`. Keys the code reads with a `.get` default are
`Option` fields; keys it indexes directly are plain fields. -/

/-- One entry of a contact's `custom_field_values` list. -/
structure CustomFieldEntry where
  field_name : String
  value : String
deriving DecidableEq

/-- The `address` sub-dictionary of a contact (`street` may be absent). -/
structure ContactAddress where
  street : Option String
deriving DecidableEq

/-- One entry of a contact's `phone_numbers` list. -/
structure PhoneEntry where
  number : String
deriving DecidableEq

/-- A contact record as read by the conflict checker: `name` is indexed
directly, everything else is read with a `.get` default. -/
structure Contact where
  name : String
  ctype : Option String
  custom_field_values : List CustomFieldEntry
  address : Option ContactAddress
  phone_numbers : List PhoneEntry
deriving DecidableEq

/-- The `client` sub-dictionary of a matter (`name` may be absent). -/
structure MatterClient where
  name : Option String
deriving DecidableEq

/-- A matter record as read by the conflict checker; every key is read with a
`.get` default. -/
structure Matter where
  client : Option MatterClient
  display_number : Option String
  description : Option String
deriving DecidableEq

/-- The `new_client_info` dictionary: all four keys are indexed directly. -/
structure NewClientInfo where
  name : String
  dob : String
  address : String
  phone : String
deriving DecidableEq

/-- Embeds `get_custom_field_value(contact, field_name)`: the value of the
first custom field whose name matches case-insensitively, else `None`. -/
def get_custom_field_value (contact : Contact) (field_name : String) : Option String :=
  match contact.custom_field_values.find?
      (fun f => pyLower f.field_name == pyLower field_name) with
  | some f => some f.value
  | none => none

/-! ### ConflictMatcher: `perform_advanced_conflict_check`

The Python function appends finding strings to a local list, one block of
appends per rule, per contact in order, then per matter. Each block below is
one rule block of the source; the top-level function concatenates them in the
source's order. -/

/-- Rule block "Check full legal name". -/
def nameMatchFindings (q : NewClientInfo) (c : Contact) : List String :=
  if pyIn (pyLower q.name) (pyLower c.name) then
    ["Name match: " ++ c.name]
  else []

/-- Rule block "Check maiden/married names". -/
def maidenNameFindings (q : NewClientInfo) (c : Contact) : List String :=
  match get_custom_field_value c "Maiden Name" with
  | some m =>
    if m ≠ "" then
      if pyIn (pyLower q.name) (pyLower m) then
        ["Maiden name match: " ++ c.name ++ " (Maiden: " ++ m ++ ")"]
      else []
    else []
  | none => []

/-- Rule block "Check nicknames": each comma-separated token of the
`Nicknames` custom field, stripped and lower-cased, is tested as a substring
of the query name; one finding per matching token. -/
def nicknameFindings (q : NewClientInfo) (c : Contact) : List String :=
  match get_custom_field_value c "Nicknames" with
  | some ns =>
    if ns ≠ "" then
      (pySplitComma ns).filterMap (fun nk =>
        if pyIn (pyLower (pyStrip nk)) (pyLower q.name) then
          some ("Nickname match: " ++ c.name ++ " (Nickname: " ++ pyStrip nk ++ ")")
        else none)
    else []
  | none => []

/-- Rule block "Check date of birth". -/
def dobFindings (q : NewClientInfo) (c : Contact) : List String :=
  match get_custom_field_value c "Date of Birth" with
  | some d =>
    if d ≠ "" then
      if d = q.dob then
        ["Date of birth match: " ++ c.name ++ " (DOB: " ++ d ++ ")"]
      else []
    else []
  | none => []

/-- The lower-cased street of `contact.get('address', {}).get('street', '')`. -/
def contactStreetLower (c : Contact) : String :=
  pyLower (match c.address with
           | some a => a.street.getD ""
           | none => "")

/-- Rule block "Check address": fires only when both lower-cased strings are
nonempty (Python truthiness guards) and equal. -/
def addressFindings (q : NewClientInfo) (c : Contact) : List String :=
  let contact_address := contactStreetLower c
  let new_address := pyLower q.address
  if contact_address ≠ "" then
    if new_address ≠ "" then
      if contact_address = new_address then ["Address match: " ++ c.name] else []
    else []
  else []

/-- Rule block "Check phone number": one finding per matching entry of
`phone_numbers` (exact, case-sensitive equality). -/
def phoneFindings (q : NewClientInfo) (c : Contact) : List String :=
  c.phone_numbers.filterMap (fun p =>
    if p.number = q.phone then some ("Phone number match: " ++ c.name) else none)

/-- One company-only custom-field rule block (officers, partners, trade
names share this shape in the source). -/
def companyFieldFindings (q : NewClientInfo) (c : Contact)
    (field_name label : String) : List String :=
  match get_custom_field_value c field_name with
  | some v =>
    if v ≠ "" then
      if pyIn (pyLower q.name) (pyLower v) then [label ++ c.name] else []
    else []
  | none => []

/-- Rule block "Business-specific checks", guarded by
`contact.get('type', '').lower() == 'company'`. -/
def companyFindings (q : NewClientInfo) (c : Contact) : List String :=
  if pyLower (c.ctype.getD "") = "company" then
    companyFieldFindings q c "Officers and Directors" "Officer/Director match: "
      ++ companyFieldFindings q c "Partners" "Partner match: "
      ++ companyFieldFindings q c "Trade Names" "Trade name match: "
  else []

/-- All findings the per-contact loop body appends for one contact, in the
source's append order. -/
def contactConflicts (q : NewClientInfo) (c : Contact) : List String :=
  nameMatchFindings q c ++ maidenNameFindings q c ++ nicknameFindings q c
    ++ dobFindings q c ++ addressFindings q c ++ phoneFindings q c
    ++ companyFindings q c

/-- The matter loop body: query name (lower-cased) as substring of the
matter's client name (lower-cased, `''` defaults for missing keys). -/
def matterConflicts (q : NewClientInfo) (m : Matter) : List String :=
  let client_name := pyLower (match m.client with
                              | some cl => cl.name.getD ""
                              | none => "")
  if pyIn (pyLower q.name) client_name then
    ["Opposing party match in matter: " ++ m.display_number.getD "N/A"
      ++ " - " ++ m.description.getD "N/A"]
  else []

/-- Embeds `perform_advanced_conflict_check(new_client_info, contacts,
matters)`: findings accumulate per contact in list order, then per matter. -/
def perform_advanced_conflict_check (q : NewClientInfo)
    (contacts : List Contact) (matters : List Matter) : List String :=
  (contacts.flatMap (contactConflicts q)) ++ (matters.flatMap (matterConflicts q))

/-- Two invocations of the conflict check on the same query and corpus,
modelling a re-run of the script with unchanged state. -/
def checkTwice (q : NewClientInfo) (contacts : List Contact)
    (matters : List Matter) : List String × List String :=
  (perform_advanced_conflict_check q contacts matters,
   perform_advanced_conflict_check q contacts matters)

/-! ### Token management: the `tokens` table, `refresh_access_token`,
`get_valid_token` -/

/-- One row of the SQLite `tokens` table. -/
structure TokenRecord where
  access_token : String
  refresh_token : Option String
  token_expiry : Int
deriving DecidableEq

/-- The `tokens` table; `save_token_to_db` INSERTs, so the latest row is the
last element. -/
abbrev TokenStore := List TokenRecord

/-- Embeds `save_token_to_db`. -/
def save_token_to_db (store : TokenStore) (access_token : String)
    (refresh_token : Option String) (token_expiry : Int) : TokenStore :=
  store ++ [⟨access_token, refresh_token, token_expiry⟩]

/-- Embeds `get_token_from_db` (SELECT ... ORDER BY id DESC LIMIT 1). -/
def get_token_from_db (store : TokenStore) : Option TokenRecord :=
  store.getLast?

/-- The token endpoint's response to one `grant_type=refresh_token` POST:
HTTP status and body, and the JSON fields the code reads on a 200. -/
structure RefreshResponse where
  status : Nat
  body : String
  access_token : String
  refresh_token : Option String
  expires_in : Int
deriving DecidableEq

/-- Embeds `refresh_access_token(refresh_token)` with the remote's response
passed as an oracle. On a 200 it saves a new row (keeping the old refresh
token when the response has none) and returns the new access token; on any
other status it returns `None` and leaves the store untouched. -/
def refresh_access_token (store : TokenStore) (now : Int) (refresh_token : String)
    (resp : RefreshResponse) : Option String × TokenStore :=
  if resp.status = 200 then
    let new_refresh_token := resp.refresh_token.getD refresh_token
    let token_expiry := now + resp.expires_in
    (some resp.access_token,
     save_token_to_db store resp.access_token (some new_refresh_token) token_expiry)
  else
    (none, store)

/-- Embeds `get_valid_token()`. Result: the access token (or `None`), the
store after the call, and the number of refresh-token network calls issued. -/
def get_valid_token (store : TokenStore) (now : Int) (resp : RefreshResponse) :
    Option String × TokenStore × Nat :=
  match get_token_from_db store with
  | none => (none, store, 0)
  | some r =>
    if r.access_token = "" then (none, store, 0)
    else if r.token_expiry ≤ now then
      match r.refresh_token with
      | some rt =>
        if rt = "" then (none, store, 0)
        else
          let res := refresh_access_token store now rt resp
          (res.1, res.2, 1)
      | none => (none, store, 0)
    else
      (some r.access_token, store, 0)

/-! ### OAuth callback handling: the code-exchange step of `authenticate` -/

/-- The query parameters of the authorization server's redirect callback
(`st.experimental_get_query_params()`): `code` and `state`, each possibly
absent. -/
structure Callback where
  code : Option String
  state : Option String
deriving DecidableEq

/-- The `state` value `authenticate` embeds in every authorization URL it
renders: the fixed string `"streamlit_app"` (source line 273), i.e. the
"nonce" issued by beginning authorization. -/
def authStateParam : String := "streamlit_app"

/-- Outcome of the code-exchange step of `authenticate`. -/
inductive ExchangeOutcome where
  | success
  | failedToObtain (status : Nat) (body : String)
  | noCode
deriving DecidableEq

/-- Embeds the code-exchange step of `authenticate` (source lines 241-263):
if the callback carries a `code`, POST it to the token endpoint and on a 200
save the token row; the `state` parameter is never read. Result: outcome, the
store after the step, and the number of token-endpoint POSTs issued. -/
def authenticateExchange (cb : Callback) (resp : RefreshResponse)
    (store : TokenStore) (now : Int) : ExchangeOutcome × TokenStore × Nat :=
  match cb.code with
  | none => (.noCode, store, 0)
  | some _ =>
    if resp.status = 200 then
      (.success,
       save_token_to_db store resp.access_token resp.refresh_token (now + resp.expires_in),
       1)
    else
      (.failedToObtain resp.status resp.body, store, 1)

/-! ### API client: `clio_api_request` -/

/-- One HTTP response of the resource endpoint: status and body. -/
structure HttpResponse where
  status : Nat
  body : String
deriving DecidableEq

/-- Result of `clio_api_request`: the parsed body on a 200, otherwise the
error surfaced via `st.error` with the response's status and body (the code
then returns `None`), or no-token when `get_valid_token` yielded nothing. -/
inductive ApiResult where
  | ok (body : String)
  | apiError (status : Nat) (body : String)
  | noToken
deriving DecidableEq

/-- Embeds `clio_api_request(endpoint, params)` for one page request.
`token` is what `get_valid_token()` returned, `stored_refresh` what
`get_refresh_token()` returns from the DB, `refreshResp` the token
endpoint's answer to the 401-triggered refresh, and `http n` the resource
endpoint's answer to the (n+1)-th GET of this page. Result: the `ApiResult`,
the number of page GETs issued, and the number of refresh-token calls. -/
def clio_api_request (token : Option String) (http : Nat → HttpResponse)
    (stored_refresh : Option String) (refreshResp : RefreshResponse) :
    ApiResult × Nat × Nat :=
  match token with
  | none => (.noToken, 0, 0)
  | some _ =>
    let r1 := http 0
    if r1.status = 200 then (.ok r1.body, 1, 0)
    else if r1.status = 401 then
      match stored_refresh with
      | some rt =>
        if rt = "" then (.apiError r1.status r1.body, 1, 0)
        else if refreshResp.status = 200 then
          let r2 := http 1
          if r2.status = 200 then (.ok r2.body, 2, 1)
          else (.apiError r2.status r2.body, 2, 1)
        else (.apiError r1.status r1.body, 1, 1)
      | none => (.apiError r1.status r1.body, 1, 0)
    else (.apiError r1.status r1.body, 1, 0)

/-! ### Pagination: `fetch_all_pages` -/

/-- A successful page response as `fetch_all_pages` reads it: the `data`
array and `meta.paging.next_page`. `clio_api_request` returning `None`, a
JSON body without a `data` key, and an empty JSON body all make the loop
break the same way; they are the `none` case of the page oracle. -/
structure PageResponse (α : Type) where
  data : List α
  next_page : Option Nat
deriving DecidableEq

/-- Python truthiness of the `next_page` value (absent and `0` are falsy). -/
def nextPageTruthy : Option Nat → Bool
  | none => false
  | some n => n ≠ 0

/-- The `while True` loop of `fetch_all_pages`, structured over the fuel
`max_pages - pages_fetched`. Result: accumulated records, whether the
max-page truncation warning was emitted (`st.warning`, source line 338), and
the number of page requests issued. -/
def fetchPagesLoop {α : Type} (api : Nat → Option (PageResponse α)) :
    Nat → Nat → List α × Bool × Nat
  | 0, _ => ([], true, 0)
  | fuel + 1, page =>
    match api page with
    | none => ([], false, 1)
    | some resp =>
      if nextPageTruthy resp.next_page then
        let rest := fetchPagesLoop api fuel (resp.next_page.getD 0)
        (resp.data ++ rest.1, rest.2.1, rest.2.2 + 1)
      else
        (resp.data, false, 1)

/-- Embeds `fetch_all_pages(endpoint, save_to_db_func, max_pages)`: start at
page 1 with `pages_fetched = 0`. `api p` is the remote's answer to the
request for page `p`. Result: accumulated records, the truncation-warning
flag, and the number of page requests issued. -/
def fetch_all_pages {α : Type} (api : Nat → Option (PageResponse α))
    (max_pages : Nat) : List α × Bool × Nat :=
  fetchPagesLoop api max_pages 1

/-! ### Concrete fixtures used by witnesses and counterexamples -/

/-- The spec's 3-page remote fixture: pages of 2, 2 and 1 records. -/
def fixturePages : Nat → Option (PageResponse Nat)
  | 1 => some ⟨[1, 2], some 2⟩
  | 2 => some ⟨[3, 4], some 3⟩
  | 3 => some ⟨[5], none⟩
  | _ => none

/-- The spec's example query: John Smith with empty optional fields. -/
def johnSmithQuery : NewClientInfo := ⟨"John Smith", "", "", ""⟩

/-- The spec's example corpus: the single contact John Smith, a Person. -/
def johnSmithContact : Contact := ⟨"John Smith", some "Person", [], none, []⟩

/-- A contact whose `Nicknames` custom field has a trailing comma, hence an
empty comma-separated token. -/
def trailingCommaContact : Contact :=
  ⟨"Ann Example", some "Person", [⟨"Nicknames", "Bob,"⟩], none, []⟩

/-- A query and a contact that both have an (effectively) empty address:
the two lower-cased address strings are equal, yet the address rule's
truthiness guards keep it from firing. -/
def emptyAddressQuery : NewClientInfo := ⟨"Zed", "", "", ""⟩

/-- Contact with no `address` key at all (street defaults to `''`). -/
def noAddressContact : Contact := ⟨"Quentin Quiet", some "Person", [], none, []⟩

/-- An expired token row that still carries a refresh token. -/
def expiredTokenStore : TokenStore := [⟨"stale-access", some "refresh-1", 50⟩]

/-- A failing (HTTP 400) token-endpoint response. -/
def failingRefreshResponse : RefreshResponse := ⟨400, "invalid_grant", "", none, 0⟩

/-- A succeeding (HTTP 200) token-endpoint response. -/
def okRefreshResponse : RefreshResponse := ⟨200, "", "new-access", some "refresh-2", 3600⟩

/-- A callback whose `state` differs from the one the app issues. -/
def mismatchedStateCallback : Callback := ⟨some "auth-code-1", some "attacker-state"⟩

/-- Resource-endpoint oracle answering 401 to both the first and the retried
GET of a page. -/
def always401 : Nat → HttpResponse := fun _ => ⟨401, "unauthorized"⟩

/-! ### Helper lemmas -/

/-- The empty needle is a substring of every character list (Python
`'' in s` is `True`). -/
theorem charsContain_nil (l : List Char) : charsContain [] l = true := by
  cases l <;> simp [charsContain, charsStartWith]

/-- Each invocation of `fetchPagesLoop` issues at most `fuel` page
requests. -/
theorem fetchPagesLoop_requests_le {α : Type} (api : Nat → Option (PageResponse α)) :
    ∀ fuel page, (fetchPagesLoop api fuel page).2.2 ≤ fuel := by
  intro fuel
  induction fuel with
  | zero => intro page; simp [fetchPagesLoop]
  | succ n ih =>
    intro page
    simp only [fetchPagesLoop]
    cases h : api page with
    | none => simp
    | some resp =>
      by_cases hnp : nextPageTruthy resp.next_page
      · have := ih (resp.next_page.getD 0)
        simp [hnp]
        omega
      · simp [hnp]

/-! ### Claim theorems -/

/-- C7: on the query {name: "John Smith", dob/address/phone empty}, a corpus
with the single contact {name: "John Smith", type: "Person"} and no matters,
`perform_advanced_conflict_check` yields exactly one finding, and it is the
Name-rule finding; no other rule fires despite the missing optional fields. -/
theorem john_smith_single_name_finding :
    perform_advanced_conflict_check johnSmithQuery [johnSmithContact] [] =
      ["Name match: John Smith"] := by decide

/-- C9: `perform_advanced_conflict_check` is deterministic and idempotent
under re-invocation: running it twice on the same query and unchanged corpus
(`checkTwice`) yields identical finding lists in identical order. The
embedding is a pure function because the source only reads its arguments and
appends to a fresh local list, so the corpus and query are not mutated. -/
theorem conflict_check_idempotent (q : NewClientInfo) (cs : List Contact)
    (ms : List Matter) :
    (checkTwice q cs ms).1 = (checkTwice q cs ms).2 := rfl

/-- C8 (counterexample): the claim "the Address rule fires if and only if the
two lower-cased strings are equal" fails when both are empty: for the query
with an empty address and a contact with no address key, the lower-cased
strings are equal, yet no Address finding is produced. -/
theorem address_rule_equal_but_silent :
    pyLower emptyAddressQuery.address = contactStreetLower noAddressContact ∧
    addressFindings emptyAddressQuery noAddressContact = [] := by decide

/-- C8 (amended): the Address rule fires if and only if the lower-cased
query address and the lower-cased contact street are both nonempty and
equal (the source guards the comparison with Python truthiness of both
lower-cased strings). -/
theorem address_rule_fires_iff (q : NewClientInfo) (c : Contact) :
    addressFindings q c ≠ [] ↔
      (pyLower q.address ≠ "" ∧ contactStreetLower c ≠ "" ∧
        pyLower q.address = contactStreetLower c) := by
  simp only [addressFindings]
  split_ifs with h1 h2 h3 <;> simp_all
  exact fun h => h3 h.symm

/-- C10: a contact whose `Nicknames` custom field value is nonempty and has
an empty comma-separated token (e.g. a trailing comma) produces a Nickname
finding against every query name, because the stripped empty token is a
substring of every string. -/
theorem nickname_empty_token_always_fires (q : NewClientInfo)
    (cs : List Contact) (ms : List Matter) (c : Contact) (v t : String)
    (hc : c ∈ cs)
    (hv : get_custom_field_value c "Nicknames" = some v)
    (hne : v ≠ "")
    (ht : t ∈ pySplitComma v)
    (htrim : pyStrip t = "") :
    ("Nickname match: " ++ c.name ++ " (Nickname: " ++ pyStrip t ++ ")") ∈
      perform_advanced_conflict_check q cs ms := by
  have hin : pyIn (pyLower (pyStrip t)) (pyLower q.name) = true := by
    rw [htrim]
    exact charsContain_nil _
  have hnick : ("Nickname match: " ++ c.name ++ " (Nickname: " ++ pyStrip t ++ ")")
      ∈ nicknameFindings q c := by
    unfold nicknameFindings
    rw [hv]
    simp only [hne, ne_eq, not_false_iff, if_true]
    exact List.mem_filterMap.mpr ⟨t, ht, by rw [hin]; simp⟩
  have hcc : ("Nickname match: " ++ c.name ++ " (Nickname: " ++ pyStrip t ++ ")")
      ∈ contactConflicts q c := by
    unfold contactConflicts
    simp only [List.mem_append]
    tauto
  exact List.mem_append_left _ (List.mem_flatMap.mpr ⟨c, hc, hcc⟩)

/-- C10 (witness): the contact "Ann Example" with `Nicknames = "Bob,"` (a
trailing comma) produces a Nickname finding against the unrelated query name
"Zed". -/
theorem nickname_empty_token_always_fires_witness :
    ("Nickname match: " ++ trailingCommaContact.name ++ " (Nickname: "
        ++ pyStrip "" ++ ")") ∈
      perform_advanced_conflict_check emptyAddressQuery [trailingCommaContact] [] :=
  nickname_empty_token_always_fires emptyAddressQuery [trailingCommaContact] []
    trailingCommaContact "Bob," ""
    (by decide) (by decide) (by decide) (by decide) (by decide)

/-- C1 (counterexample): a callback whose `state` differs from the state
value the app issues in its authorization URLs still triggers the token
exchange (one token-endpoint POST) and is not rejected: `authenticate`
never compares `state`. -/
theorem state_mismatch_exchange_still_performed :
    mismatchedStateCallback.state ≠ some authStateParam ∧
    (authenticateExchange mismatchedStateCallback okRefreshResponse [] 0).2.2 = 1 ∧
    (authenticateExchange mismatchedStateCallback okRefreshResponse [] 0).1 =
      .success := by decide

/-- C1 (amended): the code-exchange step of `authenticate` performs the token
exchange for every callback that carries a `code`, regardless of the `state`
parameter: even when the returned state differs from the constant state
`"streamlit_app"` the app issues, the exchange is performed whenever a code
is present (and skipped only when no code is present); there is no
CSRFMismatch rejection. -/
theorem authenticate_ignores_state (cb : Callback) (resp : RefreshResponse)
    (store : TokenStore) (now : Int)
    (_hmismatch : cb.state ≠ some authStateParam) :
    (authenticateExchange cb resp store now).2.2 =
      if cb.code.isSome then 1 else 0 := by
  cases hcode : cb.code with
  | none => simp [authenticateExchange, hcode]
  | some c => simp [authenticateExchange, hcode]; split_ifs <;> rfl

/-- C1 (witness): the amended statement at the mismatched-state callback. -/
theorem authenticate_ignores_state_witness :
    (authenticateExchange mismatchedStateCallback okRefreshResponse [] 0).2.2 =
      if mismatchedStateCallback.code.isSome then 1 else 0 :=
  authenticate_ignores_state mismatchedStateCallback okRefreshResponse [] 0
    (by decide)

/-- C2 (counterexample): with an expired stored record that carries a refresh
token, a failing refresh leaves the credential store exactly as it was — the
stale record remains, so the store is not cleared. -/
theorem refresh_failure_store_not_cleared :
    get_valid_token expiredTokenStore 100 failingRefreshResponse =
      (none, expiredTokenStore, 1) ∧
    expiredTokenStore ≠ [] := by decide

/-- C2 (amended): for every stored credential record whose expiry is in the
past and whose refresh token is present (nonempty), `get_valid_token`
performs exactly one refresh-token call; if that refresh call fails, it
returns `None` (the caller has no valid token and must re-authorize), but the
credential store is left unchanged — the stale record remains rather than
being cleared. -/
theorem get_valid_token_expired_refresh_failed (store : TokenStore) (now : Int)
    (resp : RefreshResponse) (r : TokenRecord) (rt : String)
    (hrec : get_token_from_db store = some r)
    (ha : r.access_token ≠ "")
    (hexp : r.token_expiry < now)
    (hrt : r.refresh_token = some rt)
    (hrt2 : rt ≠ "")
    (hfail : resp.status ≠ 200) :
    get_valid_token store now resp = (none, store, 1) := by
  have hle : r.token_expiry ≤ now := le_of_lt hexp
  simp [get_valid_token, hrec, ha, hle, hrt, hrt2, refresh_access_token, hfail]

/-- C2 (witness): the amended statement at the concrete expired store and
failing refresh response. -/
theorem get_valid_token_expired_refresh_failed_witness :
    get_valid_token expiredTokenStore 100 failingRefreshResponse =
      (none, expiredTokenStore, 1) :=
  get_valid_token_expired_refresh_failed expiredTokenStore 100
    failingRefreshResponse ⟨"stale-access", some "refresh-1", 50⟩ "refresh-1"
    (by decide) (by decide) (by decide) (by decide) (by decide) (by decide)

/-- C3: for every stored credential record with a (nonempty) access token
whose expiry lies strictly in the future, even by an arbitrary nonnegative
safety margin, `get_valid_token` returns the stored access token, issues no
refresh (network) call, and leaves the credential store unmodified. -/
theorem get_valid_token_fresh (store : TokenStore) (now margin : Int)
    (resp : RefreshResponse) (r : TokenRecord)
    (hrec : get_token_from_db store = some r)
    (ha : r.access_token ≠ "")
    (hmargin : 0 ≤ margin)
    (hfresh : now + margin < r.token_expiry) :
    get_valid_token store now resp = (some r.access_token, store, 0) := by
  have hnotle : ¬ r.token_expiry ≤ now := by omega
  simp [get_valid_token, hrec, ha, hnotle]

/-- C3 (witness): a record expiring at 100 read at time 0 with margin 5 is
returned as-is, with no refresh call and an unchanged store. -/
theorem get_valid_token_fresh_witness :
    get_valid_token [⟨"tok", none, 100⟩] 0 failingRefreshResponse =
      (some "tok", [⟨"tok", none, 100⟩], 0) :=
  get_valid_token_fresh [⟨"tok", none, 100⟩] 0 5 failingRefreshResponse
    ⟨"tok", none, 100⟩ (by decide) (by decide) (by decide) (by decide)

/-- C4: when the first GET of a page answers 401 and a (nonempty) refresh
token is stored and the refresh succeeds, `clio_api_request` issues exactly
one refresh call and exactly one retry (two page GETs in total, so no further
retries), and if the retried response is again a 401 — or any non-2xx
status — the result is the terminal error carrying that response's status
and body. -/
theorem clio_api_request_401_refresh_retry (tok : String)
    (http : Nat → HttpResponse) (rt : String) (refreshResp : RefreshResponse)
    (h401 : (http 0).status = 401)
    (hrt : rt ≠ "")
    (hrefresh : refreshResp.status = 200) :
    (clio_api_request (some tok) http (some rt) refreshResp).2 = (2, 1) ∧
    ((http 1).status = 401 ∨ (http 1).status < 200 ∨ 300 ≤ (http 1).status →
      clio_api_request (some tok) http (some rt) refreshResp =
        (.apiError (http 1).status (http 1).body, 2, 1)) := by
  have h1 : ¬ (http 0).status = 200 := by omega
  constructor
  · simp only [clio_api_request, if_neg h1, if_pos h401, if_neg hrt, if_pos hrefresh]
    split_ifs <;> rfl
  · intro hbad
    have h2 : ¬ (http 1).status = 200 := by omega
    simp [clio_api_request, h1, h401, hrt, hrefresh, h2]

/-- C4 (witness): with a remote that answers 401 to both the initial GET and
the retry, and a succeeding refresh, the result is the terminal error with
the retry's status and body after exactly two GETs and one refresh. -/
theorem clio_api_request_401_refresh_retry_witness :
    clio_api_request (some "t0") always401 (some "refresh-1") okRefreshResponse =
      (.apiError 401 "unauthorized", 2, 1) := by
  have h := clio_api_request_401_refresh_retry "t0" always401 "refresh-1"
    okRefreshResponse (by decide) (by decide) (by decide)
  exact h.2 (by decide)

/-- C5: over the 3-page fixture (pages of 2, 2 and 1 records),
`fetch_all_pages` with `max_pages = 10` returns all 5 records with the
truncation flag false (and 3 page requests), and with `max_pages = 2` returns
the first 4 records with the truncation flag true (and 2 page requests). The
flag is the max-page truncation warning the source emits via `st.warning`. -/
theorem fetch_all_pages_fixture_counts :
    fetch_all_pages fixturePages 10 = ([1, 2, 3, 4, 5], false, 3) ∧
    fetch_all_pages fixturePages 2 = ([1, 2, 3, 4], true, 2) := by decide

/-- C6: for every page oracle and every `max_pages`, `fetch_all_pages`
issues at most `max_pages` page requests; it is a total function (the Lean
embedding is structurally recursive on the remaining page budget), so the
fetch loop terminates on every remote response sequence. -/
theorem fetch_all_pages_request_bound {α : Type}
    (api : Nat → Option (PageResponse α)) (max_pages : Nat) :
    (fetch_all_pages api max_pages).2.2 ≤ max_pages :=
  fetchPagesLoop_requests_le api max_pages 1
